import Mathlib

/-!
# Server Guardian moderation pipeline — a shallow embedding

This file embeds the moderation core of `server.py` (a Discord moderation
bot) in Lean and proves properties of it.

Modelling conventions:
* Timestamps (`datetime.now().timestamp()`) and toxicity scores are
  rationals (`ℚ`), an exact model of the real-valued quantities the code
  compares.
* Python dicts (`defaultdict(int)` for `user_violations`,
  `defaultdict(list)` for `user_messages`) are association lists in
  insertion order; `defaultdict.__getitem__` inserts the default value
  when the key is missing, and the model reproduces that side effect.
* Network and chat-transport outcomes (message deletion, DMs, role
  operations, the mod-log channel lookup) are oracles in an `Env` record;
  the observable calls the pipeline makes are collected in a list of
  `ModAction`s.
* An uncaught Python exception escaping the `on_message` handler is
  modelled by the `raised` field of `StepResult`; state mutated before
  the raise is preserved, as the module-level dicts are in Python.
-/

namespace Guardian

/-- Instants, as real-valued POSIX seconds (`datetime.now().timestamp()`). -/
abbrev Time := ℚ

/-- Toxicity scores, real-valued in `[0,1]` in intended use. -/
abbrev Score := ℚ

/-- User ids (Discord snowflakes). -/
abbrev UserId := Nat

/-- Lookup in an insertion-ordered association list (Python dict read). -/
def lookupA {α : Type} : List (UserId × α) → UserId → Option α
  | [], _ => none
  | (k, v) :: rest, u => if k = u then some v else lookupA rest u

/-- Write to an insertion-ordered association list (Python dict write):
updates in place if the key exists, appends at the end otherwise. -/
def setA {α : Type} : List (UserId × α) → UserId → α → List (UserId × α)
  | [], u, x => [(u, x)]
  | (k, v) :: rest, u, x =>
    if k = u then (k, x) :: rest else (k, v) :: setA rest u x

/-- The key set of an association list, in insertion order. -/
def keysA {α : Type} (l : List (UserId × α)) : List UserId := l.map Prod.fst

/-- The per-user violation ledger (`user_violations = defaultdict(int)`). -/
abbrev Ledger := List (UserId × Nat)

/-- The per-user spam windows (`user_messages = defaultdict(list)`). -/
abbrev Windows := List (UserId × List Time)

/-- Initial state of `user_violations`: an empty dict. -/
def user_violations : Ledger := []

/-- Initial state of `user_messages`: an empty dict. -/
def user_messages : Windows := []

/-- `defaultdict(int).__getitem__`: returns the stored count, or inserts
and returns the default `0` when the key is missing. -/
def dictGetInt (l : Ledger) (u : UserId) : Nat × Ledger :=
  match lookupA l u with
  | some c => (c, l)
  | none => (0, setA l u 0)

/-- `user_violations[u] += 1`: a defaultdict read followed by a write. -/
def dictIncr (l : Ledger) (u : UserId) : Ledger :=
  let r := dictGetInt l u
  setA r.2 u (r.1 + 1)

/-- `defaultdict(list).__getitem__`: returns the stored window, or inserts
and returns the default `[]` when the key is missing. -/
def dictGetList (w : Windows) (u : UserId) : List Time × Windows :=
  match lookupA w u with
  | some ts => (ts, w)
  | none => ([], setA w u [])

/-- The window currently stored for a user (empty if absent). -/
def windowFor (w : Windows) (u : UserId) : List Time :=
  (lookupA w u).getD []

/-- The runtime configuration dict `config` of `server.py`. -/
structure Config where
  toxicity_threshold : Score
  spam_threshold : Nat
  auto_mute_violations : Nat
  mute_duration : Time
  mod_log_channel : Option Nat
  enabled : Bool
deriving DecidableEq, Repr

/-- The initial value of `config` in `server.py`. -/
def config : Config :=
  { toxicity_threshold := 7/10
    spam_threshold := 5
    auto_mute_violations := 3
    mute_duration := 600
    mod_log_channel := none
    enabled := true }

/-- `check_spam(user_id)` at clock reading `now`: re-filters the user's
window to timestamps less than 10 seconds old, appends `now`, and reports
whether the window now holds at least `spam_threshold` entries. -/
def check_spam (cfg : Config) (w : Windows) (user_id : UserId) (now : Time) :
    Bool × Windows :=
  let ts := (dictGetList w user_id).1
  let kept := ts.filter (fun t => decide (now - t < 10))
  (decide (cfg.spam_threshold ≤ (kept ++ [now]).length),
   setA w user_id (kept ++ [now]))

/-- The JSON object shape the classifier expects from the model reply;
each field is optional because `json.loads` performs no schema check. -/
structure JsonObj where
  toxicity_score : Option Score
  categories : Option (List String)
  reason : Option String
deriving DecidableEq, Repr

/-- Outcome of the external OpenAI call as seen inside the guarded block
of `analyze_message_toxicity`: either some step raised (network error,
timeout, reply body that is not valid JSON), or a parsed JSON object. -/
inductive ServiceReply where
  | failure
  | success (obj : JsonObj)
deriving DecidableEq, Repr

/-- The fallback dict returned by the broad exception handler of
`analyze_message_toxicity`. -/
def failureAnalysis : JsonObj :=
  { toxicity_score := some 0, categories := some [], reason := some "Analysis failed" }

/-- `analyze_message_toxicity(content)`: every exception raised by the
API call or by `json.loads` is caught and replaced by the fallback dict;
a successfully parsed object is returned as-is, with no field validation. -/
def analyze_message_toxicity (reply : ServiceReply) : JsonObj :=
  match reply with
  | .failure => failureAnalysis
  | .success obj => obj

/-- Outcomes of the chat-transport and role operations the pipeline
requests; the code does not control these, so they are oracle inputs. -/
structure Env where
  deleteOk : Bool
  dmOk : Bool
  restrictOk : Bool
  logChannelOk : Bool
deriving DecidableEq, Repr

/-- Observable calls the pipeline makes on its collaborators. -/
inductive ModAction where
  | deleteAttempt (ok : Bool)
  | channelWarn
  | modLog
  | dmAttempt (ok : Bool)
  | applyRestriction (u : UserId)
deriving DecidableEq, Repr

/-- Pending auto-unmute timers: each `auto_mute_user` coroutine that has
applied the Muted role is sleeping until its recorded wake instant, at
which point it removes the role. -/
structure MuteState where
  muted : List UserId
  timers : List (UserId × Time)
deriving DecidableEq, Repr

/-- The initial mute state: no roles applied, no sleeping coroutines. -/
def muteInit : MuteState := { muted := [], timers := [] }

/-- `auto_mute_user(guild, member)` invoked at instant `now`: inside one
broad exception handler it applies the Muted role and then sleeps for
`mute_duration` seconds before removing the role. The model records the
role grant and the pending wake-up `(u, now + mute_duration)`; nothing
cancels or inspects previously scheduled wake-ups. If the role operations
fail, the handler swallows the exception and nothing is scheduled. -/
def auto_mute_user (cfg : Config) (env : Env) (m : MuteState) (u : UserId)
    (now : Time) : MuteState × List ModAction :=
  if env.restrictOk then
    ({ muted := if u ∈ m.muted then m.muted else m.muted ++ [u]
       timers := m.timers ++ [(u, now + cfg.mute_duration)] },
     [ModAction.applyRestriction u])
  else (m, [])

/-- Wake instants of the pending unmute timers for one user. -/
def timersFor (m : MuteState) (u : UserId) : List Time :=
  (m.timers.filter (fun p => p.1 == u)).map Prod.snd

/-- Minimum of a list of instants. -/
def minTime : List Time → Option Time
  | [] => none
  | t :: ts =>
    match minTime ts with
    | none => some t
    | some m => some (if t ≤ m then t else m)

/-- The instant at which a user actually loses the Muted role: the
earliest pending wake-up for that user fires first and removes the role,
whatever later timers are still sleeping. -/
def unmuteTime (m : MuteState) (u : UserId) : Option Time :=
  minTime (timersFor m u)

/-- `log_to_mod_channel`: sends iff a mod-log channel is configured and
`guild.get_channel` finds it. -/
def log_to_mod_channel (cfg : Config) (env : Env) : List ModAction :=
  if cfg.mod_log_channel.isSome && env.logChannelOk then [ModAction.modLog] else []

/-- `handle_violation(message, ...)`: increments the ledger first, then
attempts deletion (failure swallowed), logs to the mod channel, attempts
a DM warning (failure swallowed), and finally auto-mutes when the new
count reaches `auto_mute_violations`. Returns the new ledger, the new
mute state, and the collaborator calls made. -/
def handle_violation (cfg : Config) (env : Env) (led : Ledger)
    (mutes : MuteState) (u : UserId) (now : Time) :
    Ledger × MuteState × List ModAction :=
  let led1 := dictIncr led u
  let violation_count := (lookupA led1 u).getD 0
  let acts := ModAction.deleteAttempt env.deleteOk ::
    (log_to_mod_channel cfg env ++ [ModAction.dmAttempt env.dmOk])
  if cfg.auto_mute_violations ≤ violation_count then
    let r := auto_mute_user cfg env mutes u now
    (led1, r.1, acts ++ r.2)
  else
    (led1, mutes, acts)

/-- `"shit" in content.lower()`: substring test on lower-cased text. -/
def hasInfixChars (needle : List Char) : List Char → Bool
  | [] => needle.isEmpty
  | c :: rest => needle.isPrefixOf (c :: rest) || hasInfixChars needle rest

/-- The hard-coded lexical profanity filter of `on_message`. -/
def containsProfanity (content : String) : Bool :=
  hasInfixChars "shit".toList (content.toList.map Char.toLower)

/-- An inbound chat message, as the pipeline reads it. -/
structure InMessage where
  author : UserId
  content : String
  fromBot : Bool
deriving DecidableEq, Repr

/-- Result of one `on_message` invocation: the module state afterwards,
the collaborator calls made, and the uncaught exception, if one escaped
the handler. -/
structure StepResult where
  violations : Ledger
  user_messages : Windows
  mutes : MuteState
  actions : List ModAction
  raised : Option String
deriving DecidableEq, Repr

/-- `on_message(message)` at clock reading `now`, with the external
classifier outcome `reply`. Command dispatch (`bot.process_commands`) is
the AdminCommandRouter collaborator, outside the modelled core. In the
profanity branch `message.delete()` is not inside an exception handler,
so a failed deletion raises out of the handler before the channel
warning. A missing JSON field raises `KeyError` at the access site in
`on_message` (score first, then categories, then reason), after the spam
window was already mutated but before the ledger is touched. -/
def on_message (cfg : Config) (env : Env) (led : Ledger) (wins : Windows)
    (mutes : MuteState) (message : InMessage) (now : Time)
    (reply : ServiceReply) : StepResult :=
  if message.fromBot then ⟨led, wins, mutes, [], none⟩
  else if containsProfanity message.content then
    if env.deleteOk then
      ⟨led, wins, mutes, [ModAction.deleteAttempt true, ModAction.channelWarn], none⟩
    else
      ⟨led, wins, mutes, [ModAction.deleteAttempt false], some "HTTPException"⟩
  else if !cfg.enabled then ⟨led, wins, mutes, [], none⟩
  else
    let spam := check_spam cfg wins message.author now
    if spam.1 then
      let r := handle_violation cfg env led mutes message.author now
      ⟨r.1, spam.2, r.2.1, r.2.2, none⟩
    else
      let analysis := analyze_message_toxicity reply
      match analysis.toxicity_score with
      | none => ⟨led, spam.2, mutes, [], some "KeyError: toxicity_score"⟩
      | some score =>
        if cfg.toxicity_threshold ≤ score then
          match analysis.categories with
          | none => ⟨led, spam.2, mutes, [], some "KeyError: categories"⟩
          | some _ =>
            match analysis.reason with
            | none => ⟨led, spam.2, mutes, [], some "KeyError: reason"⟩
            | some _ =>
              let r := handle_violation cfg env led mutes message.author now
              ⟨r.1, spam.2, r.2.1, r.2.2, none⟩
        else ⟨led, spam.2, mutes, [], none⟩

/-- The `!toggle` admin command body: `config["enabled"] = not config["enabled"]`. -/
def toggle_guardian (c : Config) : Config := { c with enabled := !c.enabled }

/-- The `!violations @member` admin command read of the ledger:
`count = user_violations[member.id]`, a defaultdict read. -/
def show_violations (led : Ledger) (u : UserId) : Nat × Ledger :=
  dictGetInt led u

/-- Number of `applyRestriction` calls in an action trace. -/
def countRestricts (acts : List ModAction) : Nat :=
  acts.countP (fun a => match a with | .applyRestriction _ => true | _ => false)

/-- Timestamps of consecutive spam checks at least 10 seconds apart. -/
def spaced : List Time → Prop
  | [] => True
  | [_] => True
  | t1 :: t2 :: ts => t1 + 10 ≤ t2 ∧ spaced (t2 :: ts)

/-- Run `check_spam` for one user on a sequence of clock readings,
collecting the verdicts. -/
def runChecks (cfg : Config) (u : UserId) : Windows → List Time → List Bool
  | _, [] => []
  | w, t :: ts =>
    let r := check_spam cfg w u t
    r.1 :: runChecks cfg u r.2 ts

/-!
## Basic lemmas about the dict model
-/

theorem lookupA_setA_self {α : Type} (l : List (UserId × α)) (u : UserId) (x : α) :
    lookupA (setA l u x) u = some x := by
  induction l with
  | nil => simp [setA, lookupA]
  | cons p rest ih =>
    by_cases h : p.1 = u
    · simp [setA, lookupA, h]
    · simpa [setA, lookupA, h] using ih

theorem lookupA_setA_ne {α : Type} (l : List (UserId × α)) (u v : UserId) (x : α)
    (h : v ≠ u) : lookupA (setA l u x) v = lookupA l v := by
  have huv : ¬ (u = v) := fun hh => h hh.symm
  induction l with
  | nil => simp [setA, lookupA, huv]
  | cons p rest ih =>
    by_cases hp : p.1 = u
    · have hpv : ¬ (p.1 = v) := by rw [hp]; exact huv
      simp [setA, lookupA, hp, hpv, huv]
    · simp [setA, lookupA, hp, ih]

theorem setA_of_lookupA_none {α : Type} (l : List (UserId × α)) (u : UserId) (x : α)
    (h : lookupA l u = none) : setA l u x = l ++ [(u, x)] := by
  induction l with
  | nil => simp [setA]
  | cons p rest ih =>
    by_cases hp : p.1 = u
    · simp [lookupA, hp] at h
    · simp only [lookupA, hp, if_false, ite_false] at h
      simp [setA, hp, ih h]

theorem keysA_setA {α : Type} (l : List (UserId × α)) (u : UserId) (x : α) :
    keysA (setA l u x) =
      if (lookupA l u).isSome then keysA l else keysA l ++ [u] := by
  induction l with
  | nil => simp [setA, keysA, lookupA]
  | cons p rest ih =>
    by_cases hp : p.1 = u
    · simp [setA, keysA, lookupA, hp]
    · simp only [setA, hp, if_neg, ite_false, keysA, List.map_cons, lookupA]
      rw [show keysA (setA rest u x) = (setA rest u x).map Prod.fst from rfl] at ih
      by_cases hs : (lookupA rest u).isSome <;> simp [hp, hs, ih, keysA]

theorem dictGetList_fst (w : Windows) (u : UserId) :
    (dictGetList w u).1 = windowFor w u := by
  unfold dictGetList windowFor
  cases lookupA w u <;> rfl

theorem lookupA_dictIncr_self (l : Ledger) (u : UserId) :
    lookupA (dictIncr l u) u = some ((lookupA l u).getD 0 + 1) := by
  unfold dictIncr dictGetInt
  cases h : lookupA l u with
  | none => simp [h, lookupA_setA_self]
  | some c => simp [h, lookupA_setA_self]

theorem lookupA_dictIncr_ne (l : Ledger) (u v : UserId) (h : v ≠ u) :
    lookupA (dictIncr l u) v = lookupA l v := by
  unfold dictIncr dictGetInt
  cases hc : lookupA l u with
  | none => simp [lookupA_setA_ne _ _ _ _ h]
  | some c => simp [lookupA_setA_ne _ _ _ _ h]

/-!
## Structure lemmas about `handle_violation` and `check_spam`
-/

theorem handle_violation_ledger (cfg : Config) (env : Env) (led : Ledger)
    (mutes : MuteState) (u : UserId) (now : Time) :
    (handle_violation cfg env led mutes u now).1 = dictIncr led u := by
  simp only [handle_violation]
  split <;> rfl

theorem handle_violation_count (cfg : Config) (env : Env) (led : Ledger)
    (mutes : MuteState) (u : UserId) (now : Time) :
    (lookupA (handle_violation cfg env led mutes u now).1 u).getD 0 =
      (lookupA led u).getD 0 + 1 := by
  rw [handle_violation_ledger, lookupA_dictIncr_self]
  rfl

theorem handle_violation_mutes (cfg : Config) (env : Env) (led : Ledger)
    (mutes : MuteState) (u : UserId) (now : Time) :
    (handle_violation cfg env led mutes u now).2.1 =
      (if cfg.auto_mute_violations ≤ (lookupA led u).getD 0 + 1 then
        (auto_mute_user cfg env mutes u now).1 else mutes) := by
  simp only [handle_violation]
  rw [show (lookupA (dictIncr led u) u).getD 0 = (lookupA led u).getD 0 + 1 by
    rw [lookupA_dictIncr_self]; rfl]
  split <;> simp_all

theorem handle_violation_actions (cfg : Config) (env : Env) (led : Ledger)
    (mutes : MuteState) (u : UserId) (now : Time) :
    (handle_violation cfg env led mutes u now).2.2 =
      (ModAction.deleteAttempt env.deleteOk ::
        (log_to_mod_channel cfg env ++ [ModAction.dmAttempt env.dmOk])) ++
      (if cfg.auto_mute_violations ≤ (lookupA led u).getD 0 + 1 then
        (auto_mute_user cfg env mutes u now).2 else []) := by
  simp only [handle_violation]
  rw [show (lookupA (dictIncr led u) u).getD 0 = (lookupA led u).getD 0 + 1 by
    rw [lookupA_dictIncr_self]; rfl]
  split <;> simp

theorem countRestricts_handle_violation (cfg : Config) (env : Env) (led : Ledger)
    (mutes : MuteState) (u : UserId) (now : Time) :
    countRestricts (handle_violation cfg env led mutes u now).2.2 =
      (if cfg.auto_mute_violations ≤ (lookupA led u).getD 0 + 1 then
        (if env.restrictOk then 1 else 0) else 0) := by
  rw [handle_violation_actions]
  unfold countRestricts log_to_mod_channel auto_mute_user
  cases hb : (cfg.mod_log_channel.isSome && env.logChannelOk) <;>
  cases hr : env.restrictOk <;>
  by_cases hth : cfg.auto_mute_violations ≤ (lookupA led u).getD 0 + 1 <;>
    simp [hb, hr, hth, List.countP_append, List.countP_cons]

theorem check_spam_false_of_short (cfg : Config) (w : Windows) (u : UserId)
    (now : Time) (h : (windowFor w u).length + 1 < cfg.spam_threshold) :
    (check_spam cfg w u now).1 = false := by
  unfold check_spam
  rw [dictGetList_fst]
  have hf := List.length_filter_le (fun t => decide (now - t < 10)) (windowFor w u)
  simp only [decide_eq_false_iff_not, not_le, List.length_append,
    List.length_cons, List.length_nil]
  omega

theorem check_spam_window (cfg : Config) (w : Windows) (u : UserId) (now : Time) :
    windowFor (check_spam cfg w u now).2 u =
      (windowFor w u).filter (fun t => decide (now - t < 10)) ++ [now] := by
  unfold check_spam windowFor
  rw [dictGetList_fst, lookupA_setA_self]
  rfl

theorem check_spam_window_length (cfg : Config) (w : Windows) (u : UserId)
    (now : Time) :
    (windowFor (check_spam cfg w u now).2 u).length ≤ (windowFor w u).length + 1 := by
  rw [check_spam_window]
  simpa using Nat.add_le_add_right (List.length_filter_le _ _) 1

/-!
## Claim theorems
-/

/-- Claim C10: the `!toggle` admin command is an involution on the
configuration — one invocation flips only the `enabled` flag and leaves
every other field unchanged, and two consecutive invocations restore the
configuration exactly. -/
theorem C10_toggle_involution (c : Config) :
    toggle_guardian (toggle_guardian c) = c ∧
    (toggle_guardian c).enabled = !c.enabled ∧
    (toggle_guardian c).toxicity_threshold = c.toxicity_threshold ∧
    (toggle_guardian c).spam_threshold = c.spam_threshold ∧
    (toggle_guardian c).auto_mute_violations = c.auto_mute_violations ∧
    (toggle_guardian c).mute_duration = c.mute_duration ∧
    (toggle_guardian c).mod_log_channel = c.mod_log_channel := by
  cases c
  simp [toggle_guardian]

/-- Claim C2, counterexample: querying the violation count of the unseen
user `0` mutates the ledger — the `defaultdict` read inserts the key, so
the ledger after the read differs from the ledger before it. -/
theorem C2_counterexample :
    ¬ ((show_violations user_violations 0).2 = user_violations) := by
  decide

/-- Claim C2 as amended: `Get(userId)` returns the stored count (0 for
unseen users) and changes no count — every user's count reads the same
before and after — but it is not free of side effects on the key set:
reading an unseen user inserts that key with count 0 at the end of the
ledger, so the key set grows by exactly that key. -/
theorem C2_amended_get (led : Ledger) (u : UserId) :
    (show_violations led u).1 = (lookupA led u).getD 0 ∧
    (∀ v, (lookupA (show_violations led u).2 v).getD 0 = (lookupA led v).getD 0) ∧
    keysA (show_violations led u).2 =
      (if (lookupA led u).isSome then keysA led else keysA led ++ [u]) := by
  unfold show_violations dictGetInt
  cases h : lookupA led u with
  | some c => simp [h]
  | none =>
    refine ⟨rfl, fun v => ?_, by simp [keysA_setA, h]⟩
    by_cases hv : v = u
    · subst hv
      rw [lookupA_setA_self, h]
      rfl
    · rw [lookupA_setA_ne _ _ _ _ hv]

/-- The SpamWindowTracker algorithm exactly as the spec states it: fetch
or create the user's SpamWindow, drop all timestamps that have fallen out
of the trailing 10-second interval relative to `now`, append `now`, and
return true iff the remaining count reaches `spam_threshold`. (The spec's
own property "messages spaced ≥ 10 s apart never trigger spam" fixes the
boundary reading: a timestamp exactly 10 seconds old is dropped.) -/
def spamCheckSpec (cfg : Config) (w : Windows) (u : UserId) (now : Time) :
    Bool × Windows :=
  let win := windowFor w u
  let kept := win.filter (fun t => decide (now - t < 10))
  (decide (cfg.spam_threshold ≤ (kept ++ [now]).length), setA w u (kept ++ [now]))

/-- Claim C6: `check_spam` implements exactly the specified algorithm —
drop the stale timestamps from the user's window, append `now`, return
true iff the resulting window length reaches `spam_threshold` — it is a
total function (no error conditions), and it mutates only that user's
window: every other user's entry is untouched. -/
theorem C6_check_spam_spec (cfg : Config) (w : Windows) (u : UserId) (now : Time) :
    check_spam cfg w u now = spamCheckSpec cfg w u now ∧
    windowFor (check_spam cfg w u now).2 u =
      (windowFor w u).filter (fun t => decide (now - t < 10)) ++ [now] ∧
    (∀ v, v ≠ u → lookupA (check_spam cfg w u now).2 v = lookupA w v) := by
  refine ⟨?_, check_spam_window cfg w u now, ?_⟩
  · unfold check_spam spamCheckSpec
    rw [dictGetList_fst]
  · intro v hv
    unfold check_spam
    exact lookupA_setA_ne _ _ _ _ hv

/-- Witness for C6 at a concrete input: one check for user 1 on the
initial empty state agrees with the specified algorithm and leaves the
(absent) window of user 2 untouched. -/
theorem C6_witness :
    check_spam config user_messages 1 0 = spamCheckSpec config user_messages 1 0 ∧
    lookupA (check_spam config user_messages 1 0).2 2 = lookupA user_messages 2 :=
  ⟨(C6_check_spam_spec config user_messages 1 0).1,
   (C6_check_spam_spec config user_messages 1 0).2.2 2 (by decide)⟩

/-- Claim C7: a message containing the hard-coded profanity substring is
handled before the `enabled` flag is consulted and before any spam check
or AI classification: whatever the configuration (in particular when
`enabled = false`), the message is deleted, an in-channel warning is
sent, and the violation ledger, the spam windows and the mute state are
all left unchanged. (Requires the deletion itself to succeed, since in
this branch `message.delete()` is not wrapped in an exception handler.) -/
theorem C7_profanity_short_circuit (cfg : Config) (env : Env) (led : Ledger)
    (wins : Windows) (mutes : MuteState) (message : InMessage) (now : Time)
    (reply : ServiceReply) (hbot : message.fromBot = false)
    (hprof : containsProfanity message.content = true)
    (hdel : env.deleteOk = true) :
    on_message cfg env led wins mutes message now reply =
      ⟨led, wins, mutes,
       [ModAction.deleteAttempt true, ModAction.channelWarn], none⟩ := by
  simp [on_message, hbot, hprof, hdel]

/-- Witness for C7 at a concrete input: with the guardian disabled, a
profane message from user 1 is deleted and warned in-channel, and the
module state is unchanged. -/
theorem C7_witness :
    on_message { config with enabled := false } ⟨true, true, true, true⟩
        user_violations user_messages muteInit ⟨1, "oh SHIT", false⟩ 0 .failure =
      ⟨user_violations, user_messages, muteInit,
       [ModAction.deleteAttempt true, ModAction.channelWarn], none⟩ :=
  C7_profanity_short_circuit _ _ _ _ _ _ _ _ rfl (by decide) rfl

/-- Claim C8: a failure to delete the offending message during a
violation is swallowed: with deletion failing, the resulting ledger and
mute state are identical to the ones obtained with deletion succeeding,
the user's count is incremented by exactly 1, the deletion is attempted
in both cases, and all the subsequent steps (mod-log, warning DM,
auto-restriction) are the same action for action. -/
theorem C8_delete_failure_swallowed (cfg : Config) (env : Env) (led : Ledger)
    (mutes : MuteState) (u : UserId) (now : Time) :
    (handle_violation cfg { env with deleteOk := true } led mutes u now).1 =
      (handle_violation cfg { env with deleteOk := false } led mutes u now).1 ∧
    (handle_violation cfg { env with deleteOk := true } led mutes u now).2.1 =
      (handle_violation cfg { env with deleteOk := false } led mutes u now).2.1 ∧
    (lookupA (handle_violation cfg { env with deleteOk := false } led mutes u now).1 u).getD 0 =
      (lookupA led u).getD 0 + 1 ∧
    (handle_violation cfg { env with deleteOk := true } led mutes u now).2.2.head? =
      some (ModAction.deleteAttempt true) ∧
    (handle_violation cfg { env with deleteOk := false } led mutes u now).2.2.head? =
      some (ModAction.deleteAttempt false) ∧
    (handle_violation cfg { env with deleteOk := true } led mutes u now).2.2.tail =
      (handle_violation cfg { env with deleteOk := false } led mutes u now).2.2.tail := by
  refine ⟨?_, ?_, handle_violation_count _ _ _ _ _ _, ?_, ?_, ?_⟩ <;>
    simp only [handle_violation, auto_mute_user, log_to_mod_channel] <;>
    split <;> simp

/-- Claim C1, counterexample: restrict user 1 at instant 0 and again at
instant 300 (both with the initial configuration, duration 600). The code
cancels nothing: two pending unmute timers for the user now coexist, so
"at most one ActiveRestriction per user, with the expiry reset to
`now + restrictionDurationSeconds`" is false at this input. -/
theorem C1_counterexample :
    ¬ ((timersFor (auto_mute_user config ⟨true, true, true, true⟩
          (auto_mute_user config ⟨true, true, true, true⟩ muteInit 1 0).1
          1 300).1 1).length ≤ 1 ∧
       unmuteTime (auto_mute_user config ⟨true, true, true, true⟩
          (auto_mute_user config ⟨true, true, true, true⟩ muteInit 1 0).1
          1 300).1 1 = some (300 + config.mute_duration)) :=
  fun h => absurd h.1 (by decide)

/-- Claim C1 as amended: invoking the auto-mute on an already-restricted
user does not cancel the pending timer and does not reset the expiry.
Instead a second, independent timer is added — both wake instants
`t0 + mute_duration` and `t1 + mute_duration` are pending — and the user
loses the Muted role when the earliest of them, the old timer, fires at
`t0 + mute_duration`: the repeat restriction neither extends nor resets
the mute. -/
theorem C1_amended_stacking (cfg : Config) (env : Env) (u : UserId)
    (t0 t1 : Time) (hok : env.restrictOk = true) (h01 : t0 ≤ t1) :
    timersFor (auto_mute_user cfg env
        (auto_mute_user cfg env muteInit u t0).1 u t1).1 u =
      [t0 + cfg.mute_duration, t1 + cfg.mute_duration] ∧
    unmuteTime (auto_mute_user cfg env
        (auto_mute_user cfg env muteInit u t0).1 u t1).1 u =
      some (t0 + cfg.mute_duration) := by
  have hts : timersFor (auto_mute_user cfg env
      (auto_mute_user cfg env muteInit u t0).1 u t1).1 u =
      [t0 + cfg.mute_duration, t1 + cfg.mute_duration] := by
    simp [auto_mute_user, hok, muteInit, timersFor]
  refine ⟨hts, ?_⟩
  unfold unmuteTime
  rw [hts]
  simp [minTime, add_le_add_right h01 cfg.mute_duration]

/-- Witness for C1's amended statement at a concrete input: user 1
restricted at instants 0 and 300 with the initial configuration. -/
theorem C1_witness :
    timersFor (auto_mute_user config ⟨true, true, true, true⟩
        (auto_mute_user config ⟨true, true, true, true⟩ muteInit 1 0).1 1 300).1 1 =
      [0 + config.mute_duration, 300 + config.mute_duration] ∧
    unmuteTime (auto_mute_user config ⟨true, true, true, true⟩
        (auto_mute_user config ⟨true, true, true, true⟩ muteInit 1 0).1 1 300).1 1 =
      some (0 + config.mute_duration) :=
  C1_amended_stacking config ⟨true, true, true, true⟩ 1 0 300 rfl (by simp)

/-- Claim C3, counterexample: a reply that is valid JSON but has no
`toxicity_score` field is not treated as a failed classification — the
field access raises a `KeyError` that escapes the message handler, so
"the pipeline raises no error to the caller" is false at this input. -/
theorem C3_counterexample :
    ¬ ((on_message config ⟨true, true, true, true⟩ user_violations
          user_messages muteInit ⟨1, "hello", false⟩ 0
          (.success ⟨none, some [], some "r"⟩)).raised = none) := by
  decide

/-- Claim C3 as amended: a valid-JSON reply missing the required
`toxicity_score` field is not converted into `classificationFailed`; the
field access raises a `KeyError` that escapes the handler uncaught. The
message is indeed not escalated — no action is taken and the ledger and
mute state are unchanged (only the spam window has already been
updated) — but by exception, not by the score-0 fallback, which is
reserved for failures of the API call or of JSON parsing itself. -/
theorem C3_missing_field_raises (cfg : Config) (env : Env) (led : Ledger)
    (wins : Windows) (mutes : MuteState) (message : InMessage) (now : Time)
    (obj : JsonObj) (hbot : message.fromBot = false)
    (hprof : containsProfanity message.content = false)
    (hen : cfg.enabled = true)
    (hspam : (check_spam cfg wins message.author now).1 = false)
    (hsc : obj.toxicity_score = none) :
    (on_message cfg env led wins mutes message now (.success obj)).raised =
      some "KeyError: toxicity_score" ∧
    (on_message cfg env led wins mutes message now (.success obj)).violations = led ∧
    (on_message cfg env led wins mutes message now (.success obj)).mutes = mutes ∧
    (on_message cfg env led wins mutes message now (.success obj)).actions = [] ∧
    (on_message cfg env led wins mutes message now (.success obj)).user_messages =
      (check_spam cfg wins message.author now).2 := by
  simp [on_message, analyze_message_toxicity, hbot, hprof, hen, hspam, hsc]

/-- Witness for C3's amended statement at a concrete input: user 1 sends
"hello" on the initial state and the model reply parses to an object
with `categories` and `reason` but no `toxicity_score`. -/
theorem C3_witness :
    (on_message config ⟨true, true, true, true⟩ user_violations user_messages
        muteInit ⟨1, "hello", false⟩ 0 (.success ⟨none, some [], some "r"⟩)).raised =
      some "KeyError: toxicity_score" ∧
    (on_message config ⟨true, true, true, true⟩ user_violations user_messages
        muteInit ⟨1, "hello", false⟩ 0 (.success ⟨none, some [], some "r"⟩)).violations =
      user_violations ∧
    (on_message config ⟨true, true, true, true⟩ user_violations user_messages
        muteInit ⟨1, "hello", false⟩ 0 (.success ⟨none, some [], some "r"⟩)).mutes =
      muteInit ∧
    (on_message config ⟨true, true, true, true⟩ user_violations user_messages
        muteInit ⟨1, "hello", false⟩ 0 (.success ⟨none, some [], some "r"⟩)).actions =
      [] ∧
    (on_message config ⟨true, true, true, true⟩ user_violations user_messages
        muteInit ⟨1, "hello", false⟩ 0 (.success ⟨none, some [], some "r"⟩)).user_messages =
      (check_spam config user_messages 1 0).2 :=
  C3_missing_field_raises config ⟨true, true, true, true⟩ user_violations
    user_messages muteInit ⟨1, "hello", false⟩ 0 ⟨none, some [], some "r"⟩
    rfl (by decide) rfl (by decide) rfl

/-- How `on_message` behaves on a non-profane, enabled, non-spam message
whose classifier verdict carries a score at or above the threshold and
both remaining fields: it runs `handle_violation` and raises nothing. -/
theorem on_message_toxic_step (cfg : Config) (env : Env) (led : Ledger)
    (wins : Windows) (mutes : MuteState) (message : InMessage) (now : Time)
    (reply : ServiceReply) (obj : JsonObj) (s : Score)
    (hobj : analyze_message_toxicity reply = obj)
    (hbot : message.fromBot = false)
    (hprof : containsProfanity message.content = false)
    (hen : cfg.enabled = true)
    (hspam : (check_spam cfg wins message.author now).1 = false)
    (hsc : obj.toxicity_score = some s) (hs : cfg.toxicity_threshold ≤ s)
    (hcat : obj.categories.isSome = true) (hres : obj.reason.isSome = true) :
    on_message cfg env led wins mutes message now reply =
      ⟨(handle_violation cfg env led mutes message.author now).1,
       (check_spam cfg wins message.author now).2,
       (handle_violation cfg env led mutes message.author now).2.1,
       (handle_violation cfg env led mutes message.author now).2.2, none⟩ := by
  obtain ⟨c, hc⟩ := Option.isSome_iff_exists.mp hcat
  obtain ⟨r, hr⟩ := Option.isSome_iff_exists.mp hres
  simp [on_message, hobj, hbot, hprof, hen, hspam, hsc, hc, hr, hs]

/-- Claim C4, counterexample: the administrative surface accepts a
toxicity threshold of 0 (`!setthreshold 0` passes the `0 <= t <= 1`
check). With that configuration the fail-open score 0 meets the
threshold, so a message whose classification failed *is* escalated: the
ledger records a violation. -/
theorem C4_counterexample :
    ¬ ((on_message { config with toxicity_threshold := 0 }
          ⟨true, true, true, true⟩ user_violations user_messages muteInit
          ⟨1, "hello", false⟩ 0 .failure).violations = user_violations) := by
  rw [on_message_toxic_step { config with toxicity_threshold := 0 }
    ⟨true, true, true, true⟩ user_violations user_messages muteInit
    ⟨1, "hello", false⟩ 0 .failure failureAnalysis 0
    rfl rfl (by decide) rfl (by decide) rfl (le_refl 0) rfl rfl]
  rw [show (⟨(handle_violation { config with toxicity_threshold := 0 }
      ⟨true, true, true, true⟩ user_violations muteInit 1 0).1, _, _, _, _⟩ :
      StepResult).violations =
    (handle_violation { config with toxicity_threshold := 0 }
      ⟨true, true, true, true⟩ user_violations muteInit 1 0).1 from rfl]
  rw [handle_violation_ledger]
  decide

/-- Claim C4 as amended: `Classify` never raises to its caller — every
failure of the external call (network error, timeout, non-JSON body) is
mapped to the fallback verdict with score 0 — and a message whose
classification failed is not escalated (no action, ledger and mute state
unchanged, nothing raised), *provided* the configured toxicity threshold
is positive and the message is not also spam; with threshold 0, allowed
by the admin setter, the score-0 fallback meets the threshold and the
message is escalated (see the counterexample). -/
theorem C4_fail_open (cfg : Config) (env : Env) (led : Ledger)
    (wins : Windows) (mutes : MuteState) (message : InMessage) (now : Time)
    (hbot : message.fromBot = false)
    (hprof : containsProfanity message.content = false)
    (hen : cfg.enabled = true)
    (hpos : 0 < cfg.toxicity_threshold)
    (hspam : (check_spam cfg wins message.author now).1 = false) :
    analyze_message_toxicity .failure = failureAnalysis ∧
    failureAnalysis.toxicity_score = some 0 ∧
    (on_message cfg env led wins mutes message now .failure).raised = none ∧
    (on_message cfg env led wins mutes message now .failure).violations = led ∧
    (on_message cfg env led wins mutes message now .failure).mutes = mutes ∧
    (on_message cfg env led wins mutes message now .failure).actions = [] := by
  have hnot : ¬ (cfg.toxicity_threshold ≤ (0 : ℚ)) := not_le.mpr hpos
  refine ⟨rfl, rfl, ?_, ?_, ?_, ?_⟩ <;>
    simp [on_message, analyze_message_toxicity, failureAnalysis,
      hbot, hprof, hen, hspam, hnot]

/-- Witness for C4's amended statement at a concrete input: user 1 sends
"hello" on the initial state (default threshold 0.7) and the external
call fails. -/
theorem C4_witness :
    analyze_message_toxicity .failure = failureAnalysis ∧
    failureAnalysis.toxicity_score = some 0 ∧
    (on_message config ⟨true, true, true, true⟩ user_violations user_messages
        muteInit ⟨1, "hello", false⟩ 0 .failure).raised = none ∧
    (on_message config ⟨true, true, true, true⟩ user_violations user_messages
        muteInit ⟨1, "hello", false⟩ 0 .failure).violations = user_violations ∧
    (on_message config ⟨true, true, true, true⟩ user_violations user_messages
        muteInit ⟨1, "hello", false⟩ 0 .failure).mutes = muteInit ∧
    (on_message config ⟨true, true, true, true⟩ user_violations user_messages
        muteInit ⟨1, "hello", false⟩ 0 .failure).actions = [] :=
  C4_fail_open config ⟨true, true, true, true⟩ user_violations user_messages
    muteInit ⟨1, "hello", false⟩ 0 rfl (by decide) rfl (by simp [config])
    (by decide)

/-- A spam check whose stale-filter empties the stored window returns
false whenever the threshold is at least 2 (the window then holds only
the just-appended timestamp). -/
theorem check_spam_false_of_single (cfg : Config) (u : UserId) (w : Windows)
    (now : Time) (hthr : 2 ≤ cfg.spam_threshold)
    (hfil : (windowFor w u).filter (fun x => decide (now - x < 10)) = []) :
    (check_spam cfg w u now).1 = false := by
  simp only [check_spam]
  rw [dictGetList_fst, hfil]
  simp only [List.nil_append, List.length_cons, List.length_nil,
    decide_eq_false_iff_not, not_le]
  omega

/-- Invariant step for C5: once the user's window holds exactly the last
timestamp, every further check at least 10 seconds later empties it
again, so no check in a ≥10-second-spaced run returns true (threshold at
least 2). -/
theorem runChecks_all_false_single (cfg : Config) (u : UserId)
    (hthr : 2 ≤ cfg.spam_threshold) :
    ∀ (ts : List Time) (w : Windows) (t0 : Time), windowFor w u = [t0] →
      spaced (t0 :: ts) → ∀ b ∈ runChecks cfg u w ts, b = false := by
  intro ts
  induction ts with
  | nil =>
    intro w t0 _ _ b hb
    simp [runChecks] at hb
  | cons t ts ih =>
    intro w t0 hw hsp b hb
    obtain ⟨h10, hsp2⟩ : t0 + 10 ≤ t ∧ spaced (t :: ts) := hsp
    have hfil : (windowFor w u).filter (fun x => decide (t - x < 10)) = [] := by
      rw [hw]
      have hno : ¬ (t - t0 < 10) := by linarith
      simp [List.filter, hno]
    have hb1 : (check_spam cfg w u t).1 = false :=
      check_spam_false_of_single cfg u w t hthr hfil
    have hw2 : windowFor (check_spam cfg w u t).2 u = [t] := by
      rw [check_spam_window, hfil]
      rfl
    simp only [runChecks] at hb
    rcases List.mem_cons.mp hb with hb | hb
    · rw [hb, hb1]
    · exact ih (check_spam cfg w u t).2 t hw2 hsp2 b hb

/-- Claim C5, counterexample: with `spam_threshold = 1` — a value the
claim explicitly allows (`spamThreshold ≥ 1`) — the very first message
of a ≥10-second-spaced sequence is flagged as spam, because the window
always contains at least the just-appended timestamp. -/
theorem C5_counterexample :
    spaced [0] ∧
    ¬ (∀ b ∈ runChecks { config with spam_threshold := 1 } 0 user_messages [0],
        b = false) := by
  refine ⟨trivial, fun h => ?_⟩
  have hm : runChecks { config with spam_threshold := 1 } 0 user_messages [0] =
      [true] := rfl
  have := h true (by rw [hm]; exact List.mem_singleton.mpr rfl)
  simp at this

/-- Claim C5 as amended: for every configured `spam_threshold ≥ 2`, a
user whose spam checks are each at least 10 seconds after the previous
one is never flagged as spam, however many messages they send, starting
from an empty window. (With `spam_threshold = 1` every message is
flagged, including widely spaced ones — see the counterexample.) -/
theorem C5_spaced_never_spam (cfg : Config) (u : UserId) (w : Windows)
    (ts : List Time) (hthr : 2 ≤ cfg.spam_threshold)
    (hw : windowFor w u = []) (hts : spaced ts) :
    ∀ b ∈ runChecks cfg u w ts, b = false := by
  cases ts with
  | nil =>
    intro b hb
    simp [runChecks] at hb
  | cons t ts =>
    intro b hb
    have hfil : (windowFor w u).filter (fun x => decide (t - x < 10)) = [] := by
      rw [hw]
      rfl
    have hb1 : (check_spam cfg w u t).1 = false :=
      check_spam_false_of_single cfg u w t hthr hfil
    have hw2 : windowFor (check_spam cfg w u t).2 u = [t] := by
      rw [check_spam_window, hfil]
      rfl
    simp only [runChecks] at hb
    rcases List.mem_cons.mp hb with hb | hb
    · rw [hb, hb1]
    · exact runChecks_all_false_single cfg u hthr ts _ t hw2 hts b hb

/-- Witness for C5's amended statement at a concrete input: two checks
10 seconds apart under the initial configuration (threshold 5), both
reporting no spam. -/
theorem C5_witness :
    2 ≤ config.spam_threshold ∧ windowFor user_messages 1 = [] ∧
    spaced [0, 10] ∧
    (runChecks config 1 user_messages [0, 10]).all (fun b => !b) = true :=
  ⟨by decide, rfl, by simp [spaced],
   List.all_eq_true.mpr (fun b hb => by
     rw [C5_spaced_never_spam config 1 user_messages [0, 10] (by decide) rfl
       (by simp [spaced]) b hb]
     rfl)⟩

/-- Claim C9: with `auto_mute_violations = 3` (and the spam threshold at
least 4, so that three quick messages cannot trip the spam path first), a
user starting at violation count 0 who sends three messages that each
classify at or above the toxicity threshold is restricted exactly once:
the first two violations invoke no restriction, the third invokes
`ApplyRestriction` exactly once, and the ledger count at that point is 3.
Nothing is raised along the way. -/
theorem C9_three_strikes (cfg : Config) (env : Env) (led : Ledger)
    (wins : Windows) (mutes : MuteState) (u : UserId) (c1 c2 c3 : String)
    (t1 t2 t3 : Time) (o1 o2 o3 : JsonObj) (s1 s2 s3 : Score)
    (hen : cfg.enabled = true) (hthree : cfg.auto_mute_violations = 3)
    (hspthr : 4 ≤ cfg.spam_threshold) (hok : env.restrictOk = true)
    (hled : (lookupA led u).getD 0 = 0) (hwin : windowFor wins u = [])
    (hp1 : containsProfanity c1 = false)
    (hp2 : containsProfanity c2 = false)
    (hp3 : containsProfanity c3 = false)
    (ho1 : o1.toxicity_score = some s1) (hs1 : cfg.toxicity_threshold ≤ s1)
    (hc1 : o1.categories.isSome = true) (hr1 : o1.reason.isSome = true)
    (ho2 : o2.toxicity_score = some s2) (hs2 : cfg.toxicity_threshold ≤ s2)
    (hc2 : o2.categories.isSome = true) (hr2 : o2.reason.isSome = true)
    (ho3 : o3.toxicity_score = some s3) (hs3 : cfg.toxicity_threshold ≤ s3)
    (hc3 : o3.categories.isSome = true) (hr3 : o3.reason.isSome = true) :
    let r1 := on_message cfg env led wins mutes ⟨u, c1, false⟩ t1 (.success o1)
    let r2 := on_message cfg env r1.violations r1.user_messages r1.mutes
      ⟨u, c2, false⟩ t2 (.success o2)
    let r3 := on_message cfg env r2.violations r2.user_messages r2.mutes
      ⟨u, c3, false⟩ t3 (.success o3)
    countRestricts r1.actions = 0 ∧ countRestricts r2.actions = 0 ∧
    countRestricts r3.actions = 1 ∧ (lookupA r3.violations u).getD 0 = 3 ∧
    r1.raised = none ∧ r2.raised = none ∧ r3.raised = none := by
  have hsp1 : (check_spam cfg wins u t1).1 = false := by
    apply check_spam_false_of_short
    rw [hwin]
    simp only [List.length_nil]
    omega
  have hstep1 : on_message cfg env led wins mutes ⟨u, c1, false⟩ t1 (.success o1) =
      ⟨(handle_violation cfg env led mutes u t1).1,
       (check_spam cfg wins u t1).2,
       (handle_violation cfg env led mutes u t1).2.1,
       (handle_violation cfg env led mutes u t1).2.2, none⟩ :=
    on_message_toxic_step cfg env led wins mutes ⟨u, c1, false⟩ t1
      (.success o1) o1 s1 rfl rfl hp1 hen hsp1 ho1 hs1 hc1 hr1
  have hcnt1 : (lookupA (handle_violation cfg env led mutes u t1).1 u).getD 0 = 1 := by
    rw [handle_violation_count, hled]
  have hact1 : countRestricts (handle_violation cfg env led mutes u t1).2.2 = 0 := by
    rw [countRestricts_handle_violation, hled, hthree]
    norm_num
  have hwl1 : (windowFor (check_spam cfg wins u t1).2 u).length ≤ 1 := by
    have h := check_spam_window_length cfg wins u t1
    rw [hwin] at h
    simpa using h
  have hsp2 : (check_spam cfg (check_spam cfg wins u t1).2 u t2).1 = false := by
    apply check_spam_false_of_short
    omega
  have hstep2 : on_message cfg env (handle_violation cfg env led mutes u t1).1
      (check_spam cfg wins u t1).2 (handle_violation cfg env led mutes u t1).2.1
      ⟨u, c2, false⟩ t2 (.success o2) =
      ⟨(handle_violation cfg env (handle_violation cfg env led mutes u t1).1
          (handle_violation cfg env led mutes u t1).2.1 u t2).1,
       (check_spam cfg (check_spam cfg wins u t1).2 u t2).2,
       (handle_violation cfg env (handle_violation cfg env led mutes u t1).1
          (handle_violation cfg env led mutes u t1).2.1 u t2).2.1,
       (handle_violation cfg env (handle_violation cfg env led mutes u t1).1
          (handle_violation cfg env led mutes u t1).2.1 u t2).2.2, none⟩ :=
    on_message_toxic_step cfg env _ _ _ ⟨u, c2, false⟩ t2
      (.success o2) o2 s2 rfl rfl hp2 hen hsp2 ho2 hs2 hc2 hr2
  have hcnt2 : (lookupA (handle_violation cfg env
      (handle_violation cfg env led mutes u t1).1
      (handle_violation cfg env led mutes u t1).2.1 u t2).1 u).getD 0 = 2 := by
    rw [handle_violation_count, hcnt1]
  have hact2 : countRestricts (handle_violation cfg env
      (handle_violation cfg env led mutes u t1).1
      (handle_violation cfg env led mutes u t1).2.1 u t2).2.2 = 0 := by
    rw [countRestricts_handle_violation, hcnt1, hthree]
    norm_num
  have hwl2 : (windowFor (check_spam cfg (check_spam cfg wins u t1).2 u t2).2 u).length ≤ 2 := by
    have h := check_spam_window_length cfg (check_spam cfg wins u t1).2 u t2
    omega
  have hsp3 : (check_spam cfg (check_spam cfg (check_spam cfg wins u t1).2 u t2).2 u t3).1 = false := by
    apply check_spam_false_of_short
    omega
  have hstep3 : on_message cfg env
      (handle_violation cfg env (handle_violation cfg env led mutes u t1).1
        (handle_violation cfg env led mutes u t1).2.1 u t2).1
      (check_spam cfg (check_spam cfg wins u t1).2 u t2).2
      (handle_violation cfg env (handle_violation cfg env led mutes u t1).1
        (handle_violation cfg env led mutes u t1).2.1 u t2).2.1
      ⟨u, c3, false⟩ t3 (.success o3) =
      ⟨(handle_violation cfg env
          (handle_violation cfg env (handle_violation cfg env led mutes u t1).1
            (handle_violation cfg env led mutes u t1).2.1 u t2).1
          (handle_violation cfg env (handle_violation cfg env led mutes u t1).1
            (handle_violation cfg env led mutes u t1).2.1 u t2).2.1 u t3).1,
       (check_spam cfg (check_spam cfg (check_spam cfg wins u t1).2 u t2).2 u t3).2,
       (handle_violation cfg env
          (handle_violation cfg env (handle_violation cfg env led mutes u t1).1
            (handle_violation cfg env led mutes u t1).2.1 u t2).1
          (handle_violation cfg env (handle_violation cfg env led mutes u t1).1
            (handle_violation cfg env led mutes u t1).2.1 u t2).2.1 u t3).2.1,
       (handle_violation cfg env
          (handle_violation cfg env (handle_violation cfg env led mutes u t1).1
            (handle_violation cfg env led mutes u t1).2.1 u t2).1
          (handle_violation cfg env (handle_violation cfg env led mutes u t1).1
            (handle_violation cfg env led mutes u t1).2.1 u t2).2.1 u t3).2.2, none⟩ :=
    on_message_toxic_step cfg env _ _ _ ⟨u, c3, false⟩ t3
      (.success o3) o3 s3 rfl rfl hp3 hen hsp3 ho3 hs3 hc3 hr3
  have hcnt3 : (lookupA (handle_violation cfg env
      (handle_violation cfg env (handle_violation cfg env led mutes u t1).1
        (handle_violation cfg env led mutes u t1).2.1 u t2).1
      (handle_violation cfg env (handle_violation cfg env led mutes u t1).1
        (handle_violation cfg env led mutes u t1).2.1 u t2).2.1 u t3).1 u).getD 0 = 3 := by
    rw [handle_violation_count, hcnt2]
  have hact3 : countRestricts (handle_violation cfg env
      (handle_violation cfg env (handle_violation cfg env led mutes u t1).1
        (handle_violation cfg env led mutes u t1).2.1 u t2).1
      (handle_violation cfg env (handle_violation cfg env led mutes u t1).1
        (handle_violation cfg env led mutes u t1).2.1 u t2).2.1 u t3).2.2 = 1 := by
    rw [countRestricts_handle_violation, hcnt2, hthree, hok]
    norm_num
  simp only [hstep1, hstep2, hstep3]
  exact ⟨hact1, hact2, hact3, hcnt3, trivial, trivial, trivial⟩

/-- First step of the concrete C9 scenario: user 1 sends "a" at instant 0
under the initial configuration, classified at exactly the 0.7 threshold. -/
def c9step1 : StepResult :=
  on_message config ⟨true, true, true, true⟩ user_violations user_messages
    muteInit ⟨1, "a", false⟩ 0 (.success ⟨some (7/10), some [], some "x"⟩)

/-- Second step of the concrete C9 scenario: "b" at instant 1. -/
def c9step2 : StepResult :=
  on_message config ⟨true, true, true, true⟩ c9step1.violations
    c9step1.user_messages c9step1.mutes ⟨1, "b", false⟩ 1
    (.success ⟨some (7/10), some [], some "x"⟩)

/-- Third step of the concrete C9 scenario: "c" at instant 2. -/
def c9step3 : StepResult :=
  on_message config ⟨true, true, true, true⟩ c9step2.violations
    c9step2.user_messages c9step2.mutes ⟨1, "c", false⟩ 2
    (.success ⟨some (7/10), some [], some "x"⟩)

/-- Witness for C9 at a concrete input: user 1 sends "a", "b", "c" at
instants 0, 1, 2 under the initial configuration, each classified with
score exactly the 0.7 threshold; the third and only the third message
triggers the restriction, with the ledger at 3. -/
theorem C9_witness :
    countRestricts c9step1.actions = 0 ∧ countRestricts c9step2.actions = 0 ∧
    countRestricts c9step3.actions = 1 ∧
    (lookupA c9step3.violations 1).getD 0 = 3 ∧
    c9step1.raised = none ∧ c9step2.raised = none ∧ c9step3.raised = none :=
  C9_three_strikes config ⟨true, true, true, true⟩ user_violations
    user_messages muteInit 1 "a" "b" "c" 0 1 2
    ⟨some (7/10), some [], some "x"⟩ ⟨some (7/10), some [], some "x"⟩
    ⟨some (7/10), some [], some "x"⟩ (7/10) (7/10) (7/10)
    rfl rfl (by decide) rfl rfl rfl
    (by decide) (by decide) (by decide)
    rfl (le_refl _) rfl rfl
    rfl (le_refl _) rfl rfl
    rfl (le_refl _) rfl rfl

end Guardian
